import Mathlib

/-
  Verification development for the multiview-structcoder DFG-extraction core.

  The repository's callers and tests (src/run_preprocessing_small_test.py,
  src/test_dfg_extraction.py) are embedded directly from source.  The DFG
  builder itself (parser/DFG.py: DFG_python, DFG_java, DFG_csharp) and the
  token-index utilities (parser/utils.py) are not part of the sources at hand,
  so they are modelled from the specification (spec.md sections 3, 4, 6, 7);
  each such definition carries a doc comment saying so.
-/

/-- A (line, column) position, as produced by the tree-sitter parser
(node.start_point / node.end_point). -/
abbrev TokPos := Nat × Nat

/-- A leaf-node span: (start position, end position). -/
abbrev Span := TokPos × TokPos

/-- Modelled from the spec: SyntaxNode (spec.md section 3), the opaque tree
produced by the external parser.  Attributes consumed: node kind, span,
leaf text, ordered children.  parser/utils.py and the tree-sitter binding
that realise it are not under src/. -/
inductive TSNode where
  | mk (kind : String) (span : Span) (text : String) (children : List TSNode)

def TSNode.kind : TSNode → String
  | .mk k _ _ _ => k

def TSNode.span : TSNode → Span
  | .mk _ sp _ _ => sp

def TSNode.text : TSNode → String
  | .mk _ _ tx _ => tx

def TSNode.children : TSNode → List TSNode
  | .mk _ _ _ cs => cs

/-- A DFG edge, the 5-tuple (variable name, defining token index, relation
kind, source variable names, source token indices) of spec.md section 3 and
of the tuples consumed in src/run_preprocessing_small_test.py lines 77-79. -/
structure DFGEdge where
  var : String
  idx : Nat
  rel : String
  srcVars : List String
  srcIdxs : List Nat
deriving DecidableEq

/-- VariableState (spec.md section 3): name to live definition token indices,
in insertion order (a Python dict). -/
abbrev VState := List (String × List Nat)

/-- The token-index mapping built by extract_structure
(src/run_preprocessing_small_test.py line 72): span to (sequential index,
literal token text), a Python dict rendered as an association list. -/
abbrev TokenMap := List (Span × Nat × String)

/-- Dict subscript on the token-index mapping. -/
def lookupTok (m : TokenMap) (sp : Span) : Option (Nat × String) :=
  m.lookup sp

/-- Overwrite (or insert) one name in a VariableState, as Python dict
assignment does: re-binding always overwrites going forward (spec.md
section 3, invariants). -/
def stSet : VState → String → List Nat → VState
  | [], x, ids => [(x, ids)]
  | (y, v) :: st, x, ids =>
      if x = y then (x, ids) :: st else (y, v) :: stSet st x ids

/-- Union of token-index lists keeping the left order and dropping
duplicates from the right. -/
def unionIdx (a b : List Nat) : List Nat :=
  a ++ b.filter (fun i => !a.contains i)

/-- Merge one entry into a state by union of token indices per name
(spec.md section 4.2, conditional pattern). -/
def stMergeOne (st : VState) (x : String) (ids : List Nat) : VState :=
  match st.lookup x with
  | some old => stSet st x (unionIdx old ids)
  | none => st ++ [(x, ids)]

/-- Merge two states by union of token indices per name. -/
def stMerge (s1 s2 : VState) : VState :=
  s2.foldl (fun acc p => stMergeOne acc p.1 p.2) s1

/-- Modelled from the spec: the canonical node-kind handling patterns of the
DFG Builder table (spec.md section 4.2); parser/DFG.py, which realises them
per language, is not under src/. -/
inductive Pattern where
  | leafIdentifier
  | simpleAssignment
  | compoundExpression
  | declarationWithInit
  | conditional
  | loop
  | functionBoundary
  | call
  | unsupported
deriving DecidableEq

/-- Modelled from the spec: a per-language node-kind pattern table
(spec.md sections 4.2 and 4.4) together with the kind sets the generic
builder needs to locate operands: branch bodies of a conditional, the kinds
that mark a covering else branch, loop/function bodies, and parameter
lists. -/
structure LangTable where
  pats : List (String × Pattern)
  branchKinds : List String
  elseKinds : List String
  bodyKinds : List String
  paramKinds : List String

/-- Pattern of a node kind; kinds absent from the table degrade to the
unsupported pattern (spec.md section 4.2, last row). -/
def patOf (L : LangTable) (k : String) : Pattern :=
  (L.pats.lookup k).getD Pattern.unsupported

/-- Modelled from the spec: collect the left-hand target names of an
assignment (or the parameter names of a function) as (name, token index)
pairs, one per identifier leaf found in the subtree; a leaf whose span is
missing from the token index is skipped (MalformedSpan recovery, spec.md
section 7).  The fuel argument realises the recursion-depth cap of spec.md
sections 5 and 7. -/
def collectTargets (L : LangTable) (f : Span → Option (Nat × String)) :
    Nat → TSNode → List (String × Nat)
  | 0, _ => []
  | Nat.succ d, TSNode.mk k sp _ cs =>
      if cs.isEmpty then
        if patOf L k = Pattern.leafIdentifier then
          match f sp with
          | some pr => [(pr.2, pr.1)]
          | none => []
        else []
      else (cs.map (fun c => collectTargets L f d c)).flatten

/-- Modelled from the spec: resolve a right-hand subtree to its flat list of
(source variable name, source token index) pairs (spec.md section 4.2,
simple assignment and compound expression rows).  An identifier read
resolves to every live definition of that name in the current state; a name
with no live definition, or a leaf missing from the token index, contributes
nothing (spec.md section 7, MalformedSpan recovery). -/
def collectSources (L : LangTable) (f : Span → Option (Nat × String))
    (st : VState) : Nat → TSNode → List (String × Nat)
  | 0, _ => []
  | Nat.succ d, TSNode.mk k sp _ cs =>
      if cs.isEmpty then
        if patOf L k = Pattern.leafIdentifier then
          match f sp with
          | some pr =>
              match st.lookup pr.2 with
              | some ids => ids.map (fun j => (pr.2, j))
              | none => []
          | none => []
        else []
      else (cs.map (fun c => collectSources L f st d c)).flatten

mutual

/-- Modelled from the spec: the core recursive DFG Builder
(spec.md section 4.2), language-agnostic over a pattern table.  It
transforms a subtree plus an incoming VariableState into (edges, outgoing
VariableState).  The fuel argument realises the explicit recursion-depth
cap of spec.md sections 5 and 7: an over-deep subtree is truncated
(contributing no edges, state unchanged) and analysis continues for
siblings; the cap passed by the entry points below always suffices for the
whole tree. -/
def dfgNode (L : LangTable) (f : Span → Option (Nat × String)) :
    Nat → TSNode → VState → List DFGEdge × VState
  | 0, _, st => ([], st)
  | Nat.succ d, TSNode.mk k _ _ cs, st =>
      match patOf L k with
      | Pattern.leafIdentifier => ([], st)
      | Pattern.simpleAssignment => dfgAssign L f d cs st
      | Pattern.declarationWithInit => dfgAssign L f d cs st
      | Pattern.conditional =>
          let r := dfgCond L f d cs st
          let hasElse := cs.any (fun c => L.elseKinds.contains c.kind)
          let candidates := if hasElse then r.2.1 else r.2.1 ++ [r.2.2]
          let stOut :=
            match candidates with
            | [] => r.2.2
            | s0 :: rest => rest.foldl stMerge s0
          (r.1, stOut)
      | Pattern.loop =>
          let header := cs.filter (fun c => !L.bodyKinds.contains c.kind)
          let body := cs.filter (fun c => L.bodyKinds.contains c.kind)
          let r0 := dfgSeq L f d header st
          let r1 := dfgSeq L f d body r0.2
          let r2 := dfgSeq L f d body r1.2
          (r0.1 ++ r1.1 ++ r2.1, r2.2)
      | Pattern.functionBoundary =>
          let params := cs.filter (fun c => L.paramKinds.contains c.kind)
          let binds := (params.map (fun c => collectTargets L f d c)).flatten
          let fresh := binds.foldl (fun s pr => stSet s pr.1 [pr.2]) []
          let body := cs.filter (fun c => L.bodyKinds.contains c.kind)
          let r := dfgSeq L f d body fresh
          (r.1, st)
      | Pattern.compoundExpression => dfgSeq L f d cs st
      | Pattern.call => dfgSeq L f d cs st
      | Pattern.unsupported => dfgSeq L f d cs st

/-- Modelled from the spec: the simple-assignment / declaration-with-init
pattern (spec.md section 4.2).  A node shaped (target, operator, value)
resolves the value subtree to flat source pairs, emits one edge per target
name (comesFrom when the value is a single identifier, computedFrom
otherwise) and overwrites the state entry of every target; any other child
shape degrades to uniform recursion. -/
def dfgAssign (L : LangTable) (f : Span → Option (Nat × String)) :
    Nat → List TSNode → VState → List DFGEdge × VState
  | 0, _, st => ([], st)
  | Nat.succ d, cs, st =>
      match cs with
      | [lhs, _, rhs] =>
          let srcs := collectSources L f st d rhs
          let rel :=
            if patOf L rhs.kind = Pattern.leafIdentifier then "comesFrom"
            else "computedFrom"
          let tgts := collectTargets L f d lhs
          let edges := tgts.map (fun pr =>
            DFGEdge.mk pr.1 pr.2 rel (srcs.map Prod.fst) (srcs.map Prod.snd))
          let stOut := tgts.foldl (fun s pr => stSet s pr.1 [pr.2]) st
          (edges, stOut)
      | other => dfgSeq L f d other st

/-- Modelled from the spec: sequential analysis of a list of sibling
subtrees, threading the VariableState left to right (spec.md section 4.2,
design note on recursive descent returning (edges, state)). -/
def dfgSeq (L : LangTable) (f : Span → Option (Nat × String)) :
    Nat → List TSNode → VState → List DFGEdge × VState
  | 0, _, st => ([], st)
  | Nat.succ _, [], st => ([], st)
  | Nat.succ d, c :: cs, st =>
      let r1 := dfgNode L f d c st
      let r2 := dfgSeq L f d cs r1.2
      (r1.1 ++ r2.1, r2.2)

/-- Modelled from the spec: the conditional pattern's traversal
(spec.md section 4.2): children before and between branches (the condition
parts) thread the state, every branch child is analysed independently from
the state current when the first branch starts, and the branch out-states
are collected for the union merge.  Returns (edges, branch out-states,
threaded state of the non-branch children). -/
def dfgCond (L : LangTable) (f : Span → Option (Nat × String)) :
    Nat → List TSNode → VState → List DFGEdge × List VState × VState
  | 0, _, st => ([], [], st)
  | Nat.succ _, [], st => ([], [], st)
  | Nat.succ d, c :: cs, st =>
      if L.branchKinds.contains c.kind then
        let r1 := dfgNode L f d c st
        let r2 := dfgCond L f d cs st
        (r1.1 ++ r2.1, r1.2 :: r2.2.1, r2.2.2)
      else
        let r1 := dfgNode L f d c st
        let r2 := dfgCond L f d cs r1.2
        (r1.1 ++ r2.1, r2.2.1, r2.2.2)

end

/-- Modelled from the spec: the explicit recursion-depth cap of spec.md
sections 5 and 7 (RecursionLimitExceeded): a safety budget passed to the
builder; over-deep subtrees are truncated rather than crashing.  Far larger
than any tree analysed here. -/
def recursionCap : Nat := 1000

/-- Modelled from the spec: the python node-kind pattern table of
parser/DFG.py (DFG_python), which is not under src/; node kinds are the
tree-sitter-python grammar productions, each mapped to a canonical pattern
of spec.md section 4.2. -/
def pythonTable : LangTable :=
  ⟨[("identifier", Pattern.leafIdentifier),
    ("assignment", Pattern.simpleAssignment),
    ("binary_operator", Pattern.compoundExpression),
    ("unary_operator", Pattern.compoundExpression),
    ("comparison_operator", Pattern.compoundExpression),
    ("call", Pattern.call),
    ("argument_list", Pattern.compoundExpression),
    ("parenthesized_expression", Pattern.compoundExpression),
    ("if_statement", Pattern.conditional),
    ("for_statement", Pattern.loop),
    ("while_statement", Pattern.loop),
    ("function_definition", Pattern.functionBoundary),
    ("lambda", Pattern.functionBoundary)],
   ["block", "elif_clause", "else_clause"],
   ["else_clause"],
   ["block"],
   ["parameters", "lambda_parameters"]⟩

/-- Modelled from the spec: the java node-kind pattern table of
parser/DFG.py (DFG_java), which is not under src/. -/
def javaTable : LangTable :=
  ⟨[("identifier", Pattern.leafIdentifier),
    ("assignment_expression", Pattern.simpleAssignment),
    ("variable_declarator", Pattern.declarationWithInit),
    ("binary_expression", Pattern.compoundExpression),
    ("unary_expression", Pattern.compoundExpression),
    ("method_invocation", Pattern.call),
    ("argument_list", Pattern.compoundExpression),
    ("if_statement", Pattern.conditional),
    ("for_statement", Pattern.loop),
    ("while_statement", Pattern.loop),
    ("enhanced_for_statement", Pattern.loop),
    ("method_declaration", Pattern.functionBoundary),
    ("lambda_expression", Pattern.functionBoundary)],
   ["block"],
   [],
   ["block"],
   ["formal_parameters"]⟩

/-- Modelled from the spec: the c_sharp node-kind pattern table of
parser/DFG.py (DFG_csharp), which is not under src/. -/
def csharpTable : LangTable :=
  ⟨[("identifier", Pattern.leafIdentifier),
    ("assignment_expression", Pattern.simpleAssignment),
    ("variable_declarator", Pattern.declarationWithInit),
    ("binary_expression", Pattern.compoundExpression),
    ("invocation_expression", Pattern.call),
    ("argument_list", Pattern.compoundExpression),
    ("if_statement", Pattern.conditional),
    ("for_statement", Pattern.loop),
    ("while_statement", Pattern.loop),
    ("foreach_statement", Pattern.loop),
    ("method_declaration", Pattern.functionBoundary),
    ("local_function_statement", Pattern.functionBoundary)],
   ["block"],
   [],
   ["block"],
   ["parameter_list"]⟩

/-- Modelled from the spec: DFG_python of parser/DFG.py (not under src/),
the python instance of the DFG Builder: signature
(root_node, index_to_code, incoming state) to (edge list, final state), as
called at src/run_preprocessing_small_test.py line 74 and
src/test_dfg_extraction.py line 93. -/
def DFG_python (root : TSNode) (index_to_code : TokenMap) (st : VState) :
    List DFGEdge × VState :=
  dfgNode pythonTable (lookupTok index_to_code) recursionCap root st

/-- Modelled from the spec: DFG_java of parser/DFG.py (not under src/). -/
def DFG_java (root : TSNode) (index_to_code : TokenMap) (st : VState) :
    List DFGEdge × VState :=
  dfgNode javaTable (lookupTok index_to_code) recursionCap root st

/-- Modelled from the spec: DFG_csharp of parser/DFG.py (not under src/). -/
def DFG_csharp (root : TSNode) (index_to_code : TokenMap) (st : VState) :
    List DFGEdge × VState :=
  dfgNode csharpTable (lookupTok index_to_code) recursionCap root st

/-- The language dispatcher dictionary of add_structure,
src/run_preprocessing_small_test.py line 86:
dfg_function = (python, java, cs, c_sharp entries). -/
def dfg_function :
    List (String × (TSNode → TokenMap → VState → List DFGEdge × VState)) :=
  [("python", DFG_python), ("java", DFG_java),
   ("cs", DFG_csharp), ("c_sharp", DFG_csharp)]

/-- The per-edge relation-kind assertion of extract_structure,
src/run_preprocessing_small_test.py line 78. -/
def relation_assert (d : DFGEdge) : Bool :=
  (d.rel == "comesFrom") || (d.rel == "computedFrom")

/-- The assertion loop of extract_structure,
src/run_preprocessing_small_test.py lines 77-78: every edge passes
relation_assert. -/
def extract_structure_assert (DFG : List DFGEdge) : Bool :=
  DFG.all relation_assert

/-- The list comprehension of extract_structure,
src/run_preprocessing_small_test.py line 79: keep edges with a non-empty
source-index list, in order, projected to (defining index, source
indices). -/
def extract_structure_filter : List DFGEdge → List (Nat × List Nat)
  | [] => []
  | d :: ds =>
      if d.srcIdxs.length > 0 then (d.idx, d.srcIdxs) :: extract_structure_filter ds
      else extract_structure_filter ds

/-- The DFG stage of extract_structure,
src/run_preprocessing_small_test.py lines 73-79: the builder invocation is
wrapped in a bare try/except that turns any exception into an empty edge
list, then the comprehension of line 79 filters and projects.  The builder
outcome is taken as a value of Except so that the exceptional path is
represented. -/
def extract_structure_dfg (res : Except String (List DFGEdge × VState)) :
    List (Nat × List Nat) :=
  match res with
  | Except.error _ => []
  | Except.ok r => extract_structure_filter r.1

/-- Modelled from the spec: the Graph Assembler assemble(rawEdges) to
finalEdges of spec.md section 4.3, which is not under src/ as a standalone
function (extract_structure inlines its filtering at line 79, fused with
the projection): discard zero-source edges, preserve traversal order, no
deduplication (the pipeline in src/ performs none). -/
def assemble : List DFGEdge → List DFGEdge
  | [] => []
  | d :: ds => if d.srcIdxs.isEmpty then assemble ds else d :: assemble ds

/-- Modelled from the spec: buildDfg of spec.md section 6, dispatching the
language tag through the registered table set (here the dfg_function
dictionary of src/run_preprocessing_small_test.py line 86) and failing with
UnsupportedLanguage when the tag has no registered table (spec.md
sections 4.4 and 7). -/
def buildDfg (tree : TSNode) (tokenIndex : TokenMap) (languageTag : String) :
    Except String (List DFGEdge × VState) :=
  match dfg_function.lookup languageTag with
  | some F => Except.ok (F tree tokenIndex [])
  | none => Except.error "UnsupportedLanguage"

/-- Modelled from the spec: tree_to_token_nodes of parser/utils.py (not
under src/), the external token indexer's leaf enumeration (spec.md
sections 3 and 4.1): all leaf nodes in pre-order, left-to-right. -/
def tree_to_token_nodes : Nat → TSNode → List TSNode
  | 0, _ => []
  | Nat.succ d, TSNode.mk k sp tx cs =>
      if cs.isEmpty then [TSNode.mk k sp tx cs]
      else (cs.map (fun c => tree_to_token_nodes d c)).flatten

/-- Modelled from the spec: the TokenIndex construction of
spec.md section 3 as performed by extract_structure
(src/run_preprocessing_small_test.py lines 69-72): enumerate the leaves in
traversal order and map each span to (sequential index, literal text). -/
def mkTokenMap (root : TSNode) : TokenMap :=
  (tree_to_token_nodes recursionCap root).enum.map
    (fun p => (p.2.span, (p.1, p.2.text)))

/-- Leaf-node helper for the concrete test trees. -/
def leafN (k : String) (sp : Span) (tx : String) : TSNode :=
  TSNode.mk k sp tx []

/-- The tree-sitter-python parse tree of the loop test source of
src/test_dfg_extraction.py lines 219-222 (test_complex_example):
line 0 is (total = 0), line 1 is (for i in range(5):), line 2 is the
indented (total = total + i), line 3 is (result = total * 2). -/
def c1Tree : TSNode :=
  TSNode.mk "module" ((0, 0), (3, 18)) "" [
    TSNode.mk "expression_statement" ((0, 0), (0, 9)) "" [
      TSNode.mk "assignment" ((0, 0), (0, 9)) "" [
        leafN "identifier" ((0, 0), (0, 5)) "total",
        leafN "=" ((0, 6), (0, 7)) "=",
        leafN "integer" ((0, 8), (0, 9)) "0"]],
    TSNode.mk "for_statement" ((1, 0), (2, 21)) "" [
      leafN "for" ((1, 0), (1, 3)) "for",
      leafN "identifier" ((1, 4), (1, 5)) "i",
      leafN "in" ((1, 6), (1, 8)) "in",
      TSNode.mk "call" ((1, 9), (1, 17)) "" [
        leafN "identifier" ((1, 9), (1, 14)) "range",
        TSNode.mk "argument_list" ((1, 14), (1, 17)) "" [
          leafN "(" ((1, 14), (1, 15)) "(",
          leafN "integer" ((1, 15), (1, 16)) "5",
          leafN ")" ((1, 16), (1, 17)) ")"]],
      leafN ":" ((1, 17), (1, 18)) ":",
      TSNode.mk "block" ((2, 4), (2, 21)) "" [
        TSNode.mk "expression_statement" ((2, 4), (2, 21)) "" [
          TSNode.mk "assignment" ((2, 4), (2, 21)) "" [
            leafN "identifier" ((2, 4), (2, 9)) "total",
            leafN "=" ((2, 10), (2, 11)) "=",
            TSNode.mk "binary_operator" ((2, 12), (2, 21)) "" [
              leafN "identifier" ((2, 12), (2, 17)) "total",
              leafN "+" ((2, 18), (2, 19)) "+",
              leafN "identifier" ((2, 20), (2, 21)) "i"]]]]],
    TSNode.mk "expression_statement" ((3, 0), (3, 18)) "" [
      TSNode.mk "assignment" ((3, 0), (3, 18)) "" [
        leafN "identifier" ((3, 0), (3, 6)) "result",
        leafN "=" ((3, 7), (3, 8)) "=",
        TSNode.mk "binary_operator" ((3, 9), (3, 18)) "" [
          leafN "identifier" ((3, 9), (3, 14)) "total",
          leafN "*" ((3, 15), (3, 16)) "*",
          leafN "integer" ((3, 17), (3, 18)) "2"]]]]

/-- Token index for c1Tree: leaves 0..20 in traversal order; in particular
the first (total) is token 0, the in-loop defining (total) is token 11, its
right-hand (total) read is token 13, and (result) is token 16. -/
def c1Map : TokenMap := mkTokenMap c1Tree

/-- The tree-sitter-python parse tree of the branch test source of
src/test_dfg_extraction.py (spec.md section 8, branch union):
(if cond:) newline (    x = 1) newline (else:) newline (    x = 2)
newline (y = x). -/
def c2Tree : TSNode :=
  TSNode.mk "module" ((0, 0), (4, 5)) "" [
    TSNode.mk "if_statement" ((0, 0), (3, 9)) "" [
      leafN "if" ((0, 0), (0, 2)) "if",
      leafN "identifier" ((0, 3), (0, 7)) "cond",
      leafN ":" ((0, 7), (0, 8)) ":",
      TSNode.mk "block" ((1, 4), (1, 9)) "" [
        TSNode.mk "expression_statement" ((1, 4), (1, 9)) "" [
          TSNode.mk "assignment" ((1, 4), (1, 9)) "" [
            leafN "identifier" ((1, 4), (1, 5)) "x",
            leafN "=" ((1, 6), (1, 7)) "=",
            leafN "integer" ((1, 8), (1, 9)) "1"]]],
      TSNode.mk "else_clause" ((2, 0), (3, 9)) "" [
        leafN "else" ((2, 0), (2, 4)) "else",
        leafN ":" ((2, 4), (2, 5)) ":",
        TSNode.mk "block" ((3, 4), (3, 9)) "" [
          TSNode.mk "expression_statement" ((3, 4), (3, 9)) "" [
            TSNode.mk "assignment" ((3, 4), (3, 9)) "" [
              leafN "identifier" ((3, 4), (3, 5)) "x",
              leafN "=" ((3, 6), (3, 7)) "=",
              leafN "integer" ((3, 8), (3, 9)) "2"]]]]],
    TSNode.mk "expression_statement" ((4, 0), (4, 5)) "" [
      TSNode.mk "assignment" ((4, 0), (4, 5)) "" [
        leafN "identifier" ((4, 0), (4, 1)) "y",
        leafN "=" ((4, 2), (4, 3)) "=",
        leafN "identifier" ((4, 4), (4, 5)) "x"]]]

/-- The if_statement subtree of c2Tree, the conditional whose outgoing
state the branch-union property speaks about. -/
def c2IfNode : TSNode :=
  TSNode.mk "if_statement" ((0, 0), (3, 9)) "" [
    leafN "if" ((0, 0), (0, 2)) "if",
    leafN "identifier" ((0, 3), (0, 7)) "cond",
    leafN ":" ((0, 7), (0, 8)) ":",
    TSNode.mk "block" ((1, 4), (1, 9)) "" [
      TSNode.mk "expression_statement" ((1, 4), (1, 9)) "" [
        TSNode.mk "assignment" ((1, 4), (1, 9)) "" [
          leafN "identifier" ((1, 4), (1, 5)) "x",
          leafN "=" ((1, 6), (1, 7)) "=",
          leafN "integer" ((1, 8), (1, 9)) "1"]]],
    TSNode.mk "else_clause" ((2, 0), (3, 9)) "" [
      leafN "else" ((2, 0), (2, 4)) "else",
      leafN ":" ((2, 4), (2, 5)) ":",
      TSNode.mk "block" ((3, 4), (3, 9)) "" [
        TSNode.mk "expression_statement" ((3, 4), (3, 9)) "" [
          TSNode.mk "assignment" ((3, 4), (3, 9)) "" [
            leafN "identifier" ((3, 4), (3, 5)) "x",
            leafN "=" ((3, 6), (3, 7)) "=",
            leafN "integer" ((3, 8), (3, 9)) "2"]]]]]

/-- Token index for c2Tree: leaves 0..13 in traversal order; the then-branch
definition of x is token 3, the else-branch definition of x is token 8, and
y is token 11. -/
def c2Map : TokenMap := mkTokenMap c2Tree

/-- A source line as a character list, for the literal-text slicing of
src/test_dfg_extraction.py lines 79-90 (Python string slices become
take/drop on character lists). -/
abbrev Line := List Char

/-- The literal-token-text construction of src/test_dfg_extraction.py
lines 82-89: for a single-line span, the slice of that line between the
columns; for a multi-line span, the first line from the start column, then
every full intermediate line appended by the for loop over
range(start line + 1, end line), then the last line up to the end column,
accumulated by string concatenation with nothing in between. -/
def index_to_code_token (sp : Span) (code_lines : List Line) : Line :=
  if sp.1.1 = sp.2.1 then
    ((code_lines.getD sp.1.1 []).take sp.2.2).drop sp.1.2
  else
    let t0 := (code_lines.getD sp.1.1 []).drop sp.1.2
    let mid := (List.range' (sp.1.1 + 1) (sp.2.1 - (sp.1.1 + 1))).foldl
      (fun acc i => acc ++ code_lines.getD i []) t0
    mid ++ (code_lines.getD sp.2.1 []).take sp.2.2

/-- The index_to_code mapping construction of src/test_dfg_extraction.py
lines 80-90: each span of the token index, enumerated in order, maps to
(sequential index, constructed literal text). -/
def build_index_to_code (tokens_index : List Span) (code_lines : List Line) :
    List (Span × Nat × Line) :=
  tokens_index.enum.map (fun p => (p.2, (p.1, index_to_code_token p.2 code_lines)))

theorem assemble_eq_filter (E : List DFGEdge) :
    assemble E = E.filter (fun d => !d.srcIdxs.isEmpty) := by
  induction E with
  | nil => rfl
  | cons d ds ih =>
      cases h : d.srcIdxs.isEmpty <;> simp [assemble, List.filter, h, ih]

theorem mem_assemble_nonempty (E : List DFGEdge) (d : DFGEdge)
    (h : d ∈ assemble E) : d.srcIdxs ≠ [] := by
  rw [assemble_eq_filter] at h
  have h2 := (List.mem_filter.mp h).2
  simpa [List.isEmpty_iff] using h2

theorem mem_assemble_of_mem (E : List DFGEdge) (d : DFGEdge)
    (hmem : d ∈ E) (hne : d.srcIdxs ≠ []) : d ∈ assemble E := by
  rw [assemble_eq_filter]
  refine List.mem_filter.mpr ⟨hmem, ?_⟩
  simp [List.isEmpty_iff, hne]

theorem extract_structure_filter_eq (E : List DFGEdge) :
    extract_structure_filter E = (assemble E).map (fun d => (d.idx, d.srcIdxs)) := by
  induction E with
  | nil => rfl
  | cons d ds ih =>
      cases h : d.srcIdxs with
      | nil => simp [extract_structure_filter, assemble, h, ih]
      | cons j js => simp [extract_structure_filter, assemble, h, ih]

/-- C3: for every raw edge sequence, the assembled output keeps exactly the
edges with a non-empty source list, as a subsequence of the input in the
input's traversal order (it is sound: every kept edge has sources; and
complete: every non-empty-source input edge is kept), and the fused
filter-and-project comprehension of extract_structure
(src/run_preprocessing_small_test.py line 79) is exactly this assembly
followed by the (index, source indices) projection.  Assembly is a pure
function of the edge list. -/
theorem claim_C3_assembler_filters (E : List DFGEdge) :
    List.Sublist (assemble E) E ∧
    ((assemble E).all (fun d => !d.srcIdxs.isEmpty) = true) ∧
    (∀ d, d ∈ E → d.srcIdxs ≠ [] → d ∈ assemble E) ∧
    extract_structure_filter E = (assemble E).map (fun d => (d.idx, d.srcIdxs)) := by
  refine ⟨?_, ?_, ?_, extract_structure_filter_eq E⟩
  · rw [assemble_eq_filter]; exact List.filter_sublist E
  · rw [List.all_eq_true]
    intro d hd
    have := mem_assemble_nonempty E d hd
    simp [List.isEmpty_iff, this]
  · exact fun d hmem hne => mem_assemble_of_mem E d hmem hne

/-- Witness for C3 at a concrete edge list: a two-edge input whose first
edge has no sources; the second edge is kept by assembly. -/
theorem claim_C3_witness :
    DFGEdge.mk "y" 3 "comesFrom" ["x"] [1] ∈
      assemble [DFGEdge.mk "x" 0 "comesFrom" [] [],
                DFGEdge.mk "y" 3 "comesFrom" ["x"] [1]] :=
  (claim_C3_assembler_filters
      [DFGEdge.mk "x" 0 "comesFrom" [] [],
       DFGEdge.mk "y" 3 "comesFrom" ["x"] [1]]).2.2.1
    (DFGEdge.mk "y" 3 "comesFrom" ["x"] [1]) (by decide) (by decide)

/-- C7: assembly is idempotent: running the Graph Assembler a second time on
its own output changes nothing; likewise, re-filtering the already-filtered
projected output of extract_structure (src/run_preprocessing_small_test.py
line 79) by the same non-empty-source condition changes nothing. -/
theorem claim_C7_assemble_idempotent (E : List DFGEdge) :
    assemble (assemble E) = assemble E ∧
    (extract_structure_filter E).filter (fun p => p.2.length > 0) =
      extract_structure_filter E := by
  constructor
  · rw [assemble_eq_filter, assemble_eq_filter, List.filter_filter]
    simp
  · refine List.filter_eq_self.mpr ?_
    intro p hp
    rw [extract_structure_filter_eq] at hp
    rcases List.mem_map.mp hp with ⟨d, hd, hpd⟩
    have hne := mem_assemble_nonempty E d hd
    subst hpd
    simpa [List.length_pos] using hne

/-- C9: the DFG that extract_structure hands to the pipeline
(src/run_preprocessing_small_test.py lines 73-79) is the projection of the
builder's edge list to (defining token index, source token indices) pairs,
restricted to edges with non-empty sources and kept as an in-order
subsequence; variable names and the relation label are dropped by the
projection, every persisted pair has non-empty sources, and an exception
from the builder invocation yields the empty edge list instead of
propagating. -/
theorem claim_C9_extract_projection (msg : String) (dfg : List DFGEdge)
    (st : VState) :
    extract_structure_dfg (Except.error msg) = [] ∧
    extract_structure_dfg (Except.ok (dfg, st)) =
      (dfg.filter (fun d => !d.srcIdxs.isEmpty)).map (fun d => (d.idx, d.srcIdxs)) ∧
    List.Sublist (dfg.filter (fun d => !d.srcIdxs.isEmpty)) dfg ∧
    ((extract_structure_dfg (Except.ok (dfg, st))).all
      (fun p => !p.2.isEmpty) = true) := by
  refine ⟨rfl, ?_, List.filter_sublist dfg, ?_⟩
  · show extract_structure_filter dfg = _
    rw [extract_structure_filter_eq, assemble_eq_filter]
  · show (extract_structure_filter dfg).all (fun p => !p.2.isEmpty) = true
    rw [extract_structure_filter_eq, List.all_eq_true]
    intro p hp
    rcases List.mem_map.mp hp with ⟨d, hd, hpd⟩
    have hne := mem_assemble_nonempty dfg d hd
    subst hpd
    simp [List.isEmpty_iff, hne]

/-- C1: on the loop source (total = 0; for i in range(5): total = total + i;
result = total * 2), analysed with the python table, the DFG contains an
edge defining total at its in-loop occurrence (token 11) with total among
its own source variables and its own token index among the source indices
(the second-pass loop re-analysis produces the cyclic dependency), and an
edge for result (token 16) with relation computedFrom listing total as a
source. -/
theorem claim_C1_loop_self_dependency :
    (∃ e ∈ (DFG_python c1Tree c1Map []).1,
      e.var = "total" ∧ e.idx = 11 ∧ "total" ∈ e.srcVars ∧ 11 ∈ e.srcIdxs) ∧
    (∃ e ∈ (DFG_python c1Tree c1Map []).1,
      e.var = "result" ∧ e.rel = "computedFrom" ∧ "total" ∈ e.srcVars) := by
  decide

/-- C2: on the branch source (if cond: x = 1 else: x = 2; y = x), the
outgoing VariableState of the conditional maps x to both the then-branch
definition token 3 and the else-branch definition token 8 (union of token
indices per name), and the edge emitted for y (token 11) lists both token
indices as possible sources. -/
theorem claim_C2_branch_union :
    ((dfgNode pythonTable (lookupTok c2Map) recursionCap c2IfNode []).2.lookup "x"
      = some [3, 8]) ∧
    (∃ e ∈ (DFG_python c2Tree c2Map []).1,
      e.var = "y" ∧ e.idx = 11 ∧ 3 ∈ e.srcIdxs ∧ 8 ∈ e.srcIdxs) := by
  decide

theorem dfg_function_lookup_eq (tag : String) :
    dfg_function.lookup tag =
      if tag = "python" then some DFG_python
      else if tag = "java" then some DFG_java
      else if tag = "cs" then some DFG_csharp
      else if tag = "c_sharp" then some DFG_csharp
      else none := by
  by_cases h1 : tag = "python"
  · subst h1; rfl
  by_cases h2 : tag = "java"
  · subst h2; rfl
  by_cases h3 : tag = "cs"
  · subst h3; rfl
  by_cases h4 : tag = "c_sharp"
  · subst h4; rfl
  have b1 : (tag == "python") = false := beq_eq_false_iff_ne.mpr h1
  have b2 : (tag == "java") = false := beq_eq_false_iff_ne.mpr h2
  have b3 : (tag == "cs") = false := beq_eq_false_iff_ne.mpr h3
  have b4 : (tag == "c_sharp") = false := beq_eq_false_iff_ne.mpr h4
  simp [dfg_function, List.lookup, b1, b2, b3, b4, h1, h2, h3, h4]

/-- C6 counterexample: the dispatcher dictionary of add_structure
(src/run_preprocessing_small_test.py line 86) registers no table for
javascript, php, ruby or go, contradicting the claim that every tag of the
enumeration python, java, c_sharp, javascript, php, ruby, go is mapped to a
registered pattern table. -/
theorem claim_C6_counterexample :
    dfg_function.lookup "javascript" = none ∧
    dfg_function.lookup "php" = none ∧
    dfg_function.lookup "ruby" = none ∧
    dfg_function.lookup "go" = none := by
  refine ⟨?_, ?_, ?_, ?_⟩ <;> rfl

/-- C6 amended: the dispatcher registers exactly the four tags python, java,
cs and c_sharp (cs and c_sharp both mapped to the C# builder), and the
dispatch of buildDfg fails with UnsupportedLanguage exactly when the
supplied tag is none of these four registered tags. -/
theorem claim_C6_amended :
    dfg_function.lookup "python" = some DFG_python ∧
    dfg_function.lookup "java" = some DFG_java ∧
    dfg_function.lookup "cs" = some DFG_csharp ∧
    dfg_function.lookup "c_sharp" = some DFG_csharp ∧
    ∀ tag t m, buildDfg t m tag = Except.error "UnsupportedLanguage" ↔
      ¬(tag = "python" ∨ tag = "java" ∨ tag = "cs" ∨ tag = "c_sharp") := by
  refine ⟨rfl, rfl, rfl, rfl, ?_⟩
  intro tag t m
  rw [buildDfg, dfg_function_lookup_eq]
  by_cases h1 : tag = "python" <;> by_cases h2 : tag = "java" <;>
    by_cases h3 : tag = "cs" <;> by_cases h4 : tag = "c_sharp" <;>
    simp [h1, h2, h3, h4]

/-- C8: buildDfg is deterministic and pure: its result is a function of the
tree, the token index and the language tag alone, and it depends on the
token-index mapping only through the span lookups it performs — two
invocations whose token maps answer every span lookup identically (in
particular, two invocations on identical inputs) produce identical edge
sequences and identical final VariableState snapshots. -/
theorem claim_C8_determinism (t : TSNode) (tag : String) (m1 m2 : TokenMap)
    (h : ∀ sp, lookupTok m1 sp = lookupTok m2 sp) :
    buildDfg t m1 tag = buildDfg t m2 tag := by
  have hm : lookupTok m1 = lookupTok m2 := funext h
  rw [buildDfg, buildDfg, dfg_function_lookup_eq]
  split_ifs <;> simp [DFG_python, DFG_java, DFG_csharp, hm]

/-- Witness for C8 at a concrete input: the one-leaf python tree with the
empty token map, compared against itself. -/
theorem claim_C8_witness :
    buildDfg (leafN "identifier" ((0, 0), (0, 1)) "x") [] "python" =
      buildDfg (leafN "identifier" ((0, 0), (0, 1)) "x") [] "python" :=
  claim_C8_determinism (leafN "identifier" ((0, 0), (0, 1)) "x") "python" [] []
    (fun _ => rfl)

/-- C5: a node whose kind is absent from the language's pattern table is
handled by the unsupported pattern: the builder returns a result (it cannot
raise, being a total function) equal to the uniform sequential recursion
into the node's children, threading the state and emitting no edges of its
own, so a malformed or partially parsed tree yields a sparser DFG rather
than a failure. -/
theorem claim_C5_unsupported_recursion (L : LangTable)
    (f : Span → Option (Nat × String)) (d : Nat) (k : String) (sp : Span)
    (tx : String) (cs : List TSNode) (st : VState)
    (h : L.pats.lookup k = none) :
    dfgNode L f (d + 1) (TSNode.mk k sp tx cs) st = dfgSeq L f d cs st := by
  rw [dfgNode]
  simp [patOf, h]

/-- Witness for C5 at a concrete input: a node kind unknown to the python
table, with one identifier child; the builder equals the child recursion. -/
theorem claim_C5_witness :
    pythonTable.pats.lookup "mystery_kind" = none ∧
    dfgNode pythonTable (lookupTok []) 6
        (TSNode.mk "mystery_kind" ((0, 0), (0, 5)) ""
          [leafN "identifier" ((0, 0), (0, 1)) "w"]) [] =
      dfgSeq pythonTable (lookupTok []) 5
        [leafN "identifier" ((0, 0), (0, 1)) "w"] [] :=
  ⟨by decide,
   claim_C5_unsupported_recursion pythonTable (lookupTok []) 5 "mystery_kind"
     ((0, 0), (0, 5)) "" [leafN "identifier" ((0, 0), (0, 1)) "w"] []
     (by decide)⟩

theorem relations_ok (L : LangTable) (f : Span → Option (Nat × String)) :
    ∀ d : Nat,
      (∀ n st e, e ∈ (dfgNode L f d n st).1 → relation_assert e = true) ∧
      (∀ cs st e, e ∈ (dfgAssign L f d cs st).1 → relation_assert e = true) ∧
      (∀ cs st e, e ∈ (dfgSeq L f d cs st).1 → relation_assert e = true) ∧
      (∀ cs st e, e ∈ (dfgCond L f d cs st).1 → relation_assert e = true) := by
  intro d
  induction d with
  | zero =>
      refine ⟨?_, ?_, ?_, ?_⟩
      · intro n st e he; rw [dfgNode] at he; simp at he
      · intro cs st e he; rw [dfgAssign] at he; simp at he
      · intro cs st e he; rw [dfgSeq] at he; simp at he
      · intro cs st e he; rw [dfgCond] at he; simp at he
  | succ d ih =>
      obtain ⟨ihN, ihA, ihS, ihC⟩ := ih
      have hseq3 : ∀ (l1 l2 l3 : List TSNode) (s1 s2 s3 : VState) (e : DFGEdge),
          e ∈ (dfgSeq L f d l1 s1).1 ++ (dfgSeq L f d l2 s2).1 ++
              (dfgSeq L f d l3 s3).1 → relation_assert e = true := by
        intro l1 l2 l3 s1 s2 s3 e he
        rcases List.mem_append.mp he with h | h
        · rcases List.mem_append.mp h with h2 | h2
          · exact ihS l1 s1 e h2
          · exact ihS l2 s2 e h2
        · exact ihS l3 s3 e h
      refine ⟨?_, ?_, ?_, ?_⟩
      · intro n st e he
        obtain ⟨k, sp, tx, cs⟩ := n
        revert he
        rw [dfgNode]
        cases hp : patOf L k
        case leafIdentifier => intro he; simp at he
        case simpleAssignment => intro he; exact ihA cs st e he
        case declarationWithInit => intro he; exact ihA cs st e he
        case conditional => intro he; exact ihC cs st e he
        case loop => intro he; exact hseq3 _ _ _ _ _ _ e he
        case functionBoundary => intro he; exact ihS _ _ e he
        case compoundExpression => intro he; exact ihS cs st e he
        case call => intro he; exact ihS cs st e he
        case unsupported => intro he; exact ihS cs st e he
      · intro cs st e he
        rcases cs with _ | ⟨lhs, _ | ⟨op, _ | ⟨rhs, _ | ⟨c4, rest⟩⟩⟩⟩
        · exact ihS _ _ e he
        · exact ihS _ _ e he
        · exact ihS _ _ e he
        · have hm : e ∈ (collectTargets L f d lhs).map (fun pr =>
              DFGEdge.mk pr.1 pr.2
                (if patOf L rhs.kind = Pattern.leafIdentifier then "comesFrom"
                 else "computedFrom")
                ((collectSources L f st d rhs).map Prod.fst)
                ((collectSources L f st d rhs).map Prod.snd)) := he
          rcases List.mem_map.mp hm with ⟨pr, hpr, hepr⟩
          rw [← hepr]
          by_cases hli : patOf L rhs.kind = Pattern.leafIdentifier <;>
            simp [relation_assert, hli]
        · exact ihS _ _ e he
      · intro cs st e he
        cases cs with
        | nil => rw [dfgSeq] at he; simp at he
        | cons c cst =>
            revert he
            rw [dfgSeq]
            intro he
            have h2 : e ∈ (dfgNode L f d c st).1 ++
                (dfgSeq L f d cst (dfgNode L f d c st).2).1 := he
            rcases List.mem_append.mp h2 with h | h
            · exact ihN c st e h
            · exact ihS cst _ e h
      · intro cs st e he
        cases cs with
        | nil => rw [dfgCond] at he; simp at he
        | cons c cst =>
            revert he
            rw [dfgCond]
            split
            · intro he
              have h2 : e ∈ (dfgNode L f d c st).1 ++
                  (dfgCond L f d cst st).1 := he
              rcases List.mem_append.mp h2 with h | h
              · exact ihN c st e h
              · exact ihC cst st e h
            · intro he
              have h2 : e ∈ (dfgNode L f d c st).1 ++
                  (dfgCond L f d cst (dfgNode L f d c st).2).1 := he
              rcases List.mem_append.mp h2 with h | h
              · exact ihN c st e h
              · exact ihC cst _ e h

/-- C4: every edge produced by a language DFG builder (DFG_python, DFG_java,
DFG_csharp) has relation kind comesFrom or computedFrom, for every tree,
token index and incoming state: the caller-side assertion loop of
extract_structure (src/run_preprocessing_small_test.py lines 77-78) never
fails. -/
theorem claim_C4_relation_kinds (t : TSNode) (m : TokenMap) (st : VState) :
    extract_structure_assert (DFG_python t m st).1 = true ∧
    extract_structure_assert (DFG_java t m st).1 = true ∧
    extract_structure_assert (DFG_csharp t m st).1 = true := by
  refine ⟨?_, ?_, ?_⟩
  · rw [extract_structure_assert, List.all_eq_true]
    intro e he
    exact (relations_ok pythonTable (lookupTok m) recursionCap).1 t st e he
  · rw [extract_structure_assert, List.all_eq_true]
    intro e he
    exact (relations_ok javaTable (lookupTok m) recursionCap).1 t st e he
  · rw [extract_structure_assert, List.all_eq_true]
    intro e he
    exact (relations_ok csharpTable (lookupTok m) recursionCap).1 t st e he

theorem foldl_append_flatten (g : List Line) (is : List Nat) :
    ∀ init : Line,
      is.foldl (fun acc i => acc ++ g.getD i []) init =
        init ++ (is.map (fun i => g.getD i [])).flatten := by
  induction is with
  | nil => intro init; simp
  | cons i is ih =>
      intro init
      simp only [List.foldl_cons, List.map_cons, List.flatten_cons, ih,
        List.append_assoc]

theorem no_newline_getD (lines : List Line)
    (h : ∀ l ∈ lines, '\n' ∉ l) (i : Nat) : '\n' ∉ lines.getD i [] := by
  rw [List.getD_eq_getElem?_getD]
  cases hx : lines[i]? with
  | none => simp
  | some l =>
      simp only [Option.getD_some]
      exact h l (List.getElem?_mem hx)

/-- C10 amended: when a leaf token spans multiple lines (start line below
end line), the literal text stored for it by the index_to_code construction
of src/test_dfg_extraction.py lines 79-90 is the concatenation of the first
line's tail from the start column, every full intermediate line, and the
last line's head up to the end column, with no newline characters inserted
between the pieces (if no source line contains a newline, neither does the
stored text); the stored text therefore omits the span's line breaks, but
it can still occur verbatim elsewhere in the source text (see the
counterexample), so it need not fail to be a substring. -/
theorem claim_C10_amended (sp : Span) (lines : List Line)
    (h : sp.1.1 < sp.2.1) :
    index_to_code_token sp lines =
      (lines.getD sp.1.1 []).drop sp.1.2 ++
      ((List.range' (sp.1.1 + 1) (sp.2.1 - (sp.1.1 + 1))).map
        (fun i => lines.getD i [])).flatten ++
      (lines.getD sp.2.1 []).take sp.2.2 ∧
    ((∀ l ∈ lines, '\n' ∉ l) → '\n' ∉ index_to_code_token sp lines) := by
  have hne : ¬ sp.1.1 = sp.2.1 := Nat.ne_of_lt h
  have hmain : index_to_code_token sp lines =
      (lines.getD sp.1.1 []).drop sp.1.2 ++
      ((List.range' (sp.1.1 + 1) (sp.2.1 - (sp.1.1 + 1))).map
        (fun i => lines.getD i [])).flatten ++
      (lines.getD sp.2.1 []).take sp.2.2 := by
    rw [index_to_code_token, if_neg hne]
    show (List.range' (sp.1.1 + 1) (sp.2.1 - (sp.1.1 + 1))).foldl
        (fun acc i => acc ++ lines.getD i [])
        ((lines.getD sp.1.1 []).drop sp.1.2) ++
        (lines.getD sp.2.1 []).take sp.2.2 = _
    rw [foldl_append_flatten]
  refine ⟨hmain, ?_⟩
  intro hl hmem
  rw [hmain] at hmem
  rcases List.mem_append.mp hmem with h1 | h1
  · rcases List.mem_append.mp h1 with h2 | h2
    · exact no_newline_getD lines hl sp.1.1 (List.mem_of_mem_drop h2)
    · rcases List.mem_flatten.mp h2 with ⟨l, hlmem, hnl⟩
      rcases List.mem_map.mp hlmem with ⟨i, _, hil⟩
      rw [← hil] at hnl
      exact no_newline_getD lines hl i hnl
  · exact no_newline_getD lines hl sp.2.1 (List.mem_of_mem_take h1)

/-- Witness for C10 amended at a concrete input: the two-line source with
lines (a) and (b) and the multi-line span from (0,0) to (1,1); the stored
text is the newline-free concatenation (ab). -/
theorem claim_C10_witness :
    index_to_code_token ((0, 0), (1, 1)) [['a'], ['b']] = ['a', 'b'] ∧
    '\n' ∉ index_to_code_token ((0, 0), (1, 1)) [['a'], ['b']] :=
  ⟨by decide,
   (claim_C10_amended ((0, 0), (1, 1)) [['a'], ['b']] (by decide)).2 (by decide)⟩

/-- C10 counterexample: the claim that the stored text of a multi-line leaf
is never a verbatim substring of the source text is false.  For the source
text (aa newline aa), with lines (aa) and (aa), the leaf spanning (0,1) to
(1,1) is multi-line, the index_to_code construction of
src/test_dfg_extraction.py lines 79-90 stores the text (aa) for it, and
(aa) is a verbatim substring (infix) of the source text. -/
theorem claim_C10_counterexample :
    (0 : Nat) < 1 ∧
    build_index_to_code [((0, 1), (1, 1))] [['a', 'a'], ['a', 'a']] =
      [(((0, 1), (1, 1)), 0, ['a', 'a'])] ∧
    List.IsInfix (index_to_code_token ((0, 1), (1, 1)) [['a', 'a'], ['a', 'a']])
      ['a', 'a', '\n', 'a', 'a'] := by
  refine ⟨by decide, by decide, ?_⟩
  exact ⟨[], ['\n', 'a', 'a'], by decide⟩
